import Mathlib

/-!
Verification of the regression-classification engine in
`scripts/check_fst_regression.py` against its specification.

Modelling conventions of this shallow embedding:
* Python floats are modelled as rationals (`ℚ`); the classification logic
  only performs field arithmetic and order comparisons, which agree with
  the float program on the inputs the claims mention.
* A Python `dict` built by insertion is modelled as an association list
  with `dictInsert` (update-in-place for an existing key, append otherwise),
  which matches insertion-order semantics of Python dicts.
* Code that can raise an exception (`KeyError` from `benchmark['name']`,
  `ZeroDivisionError` from division by a zero baseline) is modelled by
  `Option`: `none` means the exception propagates and the computation
  aborts.
-/

namespace CheckFstRegression

/-- Embeds `class RegressionLevel(Enum)` — the four severity levels. -/
inductive RegressionLevel where
  | improvement
  | acceptable
  | warning
  | critical
  deriving DecidableEq, Repr

/-- Embeds `@dataclass BenchmarkResult` — single benchmark result. -/
structure BenchmarkResult where
  name : String
  time_ns : ℚ
  items_per_sec : ℚ := 0
  label : String := ""
  deriving DecidableEq, Repr

/-- Embeds `@dataclass RegressionAnalysis` — regression analysis for one benchmark. -/
structure RegressionAnalysis where
  name : String
  baseline_ns : ℚ
  current_ns : ℚ
  regression_pct : ℚ
  level : RegressionLevel
  deriving DecidableEq, Repr

/-- One entry of the input JSON document (`data['benchmarks']`). Every field
the loader reads is optional in the document, so each is an `Option`;
`none` models an absent key. -/
structure BenchmarkEntry where
  name : Option String := none
  real_time : Option ℚ := none
  cpu_time : Option ℚ := none
  time_unit : Option String := none
  items_per_second : Option ℚ := none
  label : Option String := none
  deriving DecidableEq, Repr

/-- Python dict assignment `results[name] = v`: replace in place when the
key is present (keeping its position), append otherwise. -/
def dictInsert (d : List (String × BenchmarkResult)) (k : String)
    (v : BenchmarkResult) : List (String × BenchmarkResult) :=
  if d.any (fun p => p.1 = k) then
    d.map (fun p => if p.1 = k then (k, v) else p)
  else
    d ++ [(k, v)]

/-- Python dict read `d[k]`, as an `Option` (a missing key raises). -/
def dictGet (d : List (String × BenchmarkResult)) (k : String) :
    Option BenchmarkResult :=
  (d.find? (fun p => p.1 = k)).map Prod.snd

/-- Lines 84–88: convert the raw time value to nanoseconds.
`if time_unit == 'ms': *= 1_000_000 elif time_unit == 'us': *= 1_000`. -/
def convertTime (raw : ℚ) (time_unit : String) : ℚ :=
  if time_unit = "ms" then raw * 1000000
  else if time_unit = "us" then raw * 1000
  else raw

/-- The loop body of `load_benchmark_results` (lines 76–103), with the
accumulated `results` dict made explicit. `benchmark['name']` raises
`KeyError` when the entry has no name, modelled by `none`: the whole load
aborts. -/
def loadLoop (results : List (String × BenchmarkResult)) :
    List BenchmarkEntry → Option (List (String × BenchmarkResult))
  | [] => some results
  | e :: rest =>
    match e.name with
    | none => none
    | some name =>
      let time_raw := e.real_time.getD (e.cpu_time.getD 0)
      let time_ns := convertTime time_raw (e.time_unit.getD "ns")
      let r : BenchmarkResult :=
        { name := name
          time_ns := time_ns
          items_per_sec := e.items_per_second.getD 0
          label := e.label.getD "" }
      loadLoop (dictInsert results name r) rest

/-- Embeds `load_benchmark_results` restricted to its per-entry processing: the
file-reading and JSON-parsing prologue (lines 66–74) is outside the
embedding, so the function takes the already-parsed list of entries. -/
def load_benchmark_results (entries : List BenchmarkEntry) :
    Option (List (String × BenchmarkResult)) :=
  loadLoop [] entries

/-- Lines 116–123: the ordered threshold cascade assigning a severity
level to a regression percentage. -/
def classify (regression_pct : ℚ) : RegressionLevel :=
  if regression_pct ≤ -5 then RegressionLevel.improvement
  else if regression_pct ≤ 10 then RegressionLevel.acceptable
  else if regression_pct ≤ 20 then RegressionLevel.warning
  else RegressionLevel.critical

/-- Embeds `analyze_regression` (lines 106–131). The division on line 113 raises
`ZeroDivisionError` when `baseline_ns == 0` (there is no guard in the
source), modelled as `none`. -/
def analyze_regression (baseline current : BenchmarkResult) :
    Option RegressionAnalysis :=
  let baseline_ns := baseline.time_ns
  let current_ns := current.time_ns
  if baseline_ns = 0 then none
  else
    let regression_pct := (current_ns - baseline_ns) / baseline_ns * 100
    some { name := baseline.name
           baseline_ns := baseline_ns
           current_ns := current_ns
           regression_pct := regression_pct
           level := classify regression_pct }

/-- The set of benchmark names of a loaded results dict
(`set(results.keys())`, lines 155–156). -/
def namesOf (d : List (String × BenchmarkResult)) : Finset String :=
  (d.map Prod.fst).toFinset

/-- Line 158: `common_names = baseline_names & current_names`. -/
def commonNames (baseline current : List (String × BenchmarkResult)) :
    Finset String :=
  namesOf baseline ∩ namesOf current

/-- Line 159: `only_baseline = baseline_names - current_names`. -/
def onlyBaseline (baseline current : List (String × BenchmarkResult)) :
    Finset String :=
  namesOf baseline \ namesOf current

/-- Line 160: `only_current = current_names - baseline_names`. -/
def onlyCurrent (baseline current : List (String × BenchmarkResult)) :
    Finset String :=
  namesOf current \ namesOf baseline

/-- Line 168: `sorted(common_names)`. -/
def sortedCommon (baseline current : List (String × BenchmarkResult)) :
    List String :=
  (commonNames baseline current).sort (· ≤ ·)

/-- Lines 168–170: the analysis loop over a given list of names.
`baseline_results[name]` / `current_results[name]` raise on a missing key,
and `analyze_regression` raises on a zero baseline; either aborts the run
(`none`). -/
def analyzeAll (baseline current : List (String × BenchmarkResult)) :
    List String → Option (List RegressionAnalysis)
  | [] => some []
  | name :: rest =>
    match dictGet baseline name, dictGet current name with
    | some b, some c =>
      match analyze_regression b c, analyzeAll baseline current rest with
      | some a, some as => some (a :: as)
      | _, _ => none
    | _, _ => none

/-- The analyses list of `check_regressions` (lines 167–170): analyze the
common benchmarks in sorted name order. -/
def analysesOf (baseline current : List (String × BenchmarkResult)) :
    Option (List RegressionAnalysis) :=
  analyzeAll baseline current (sortedCommon baseline current)

/-- Lines 172–244: bucket the analyses by level and reduce to the boolean
result of `check_regressions` (`False` on critical, else `True`; printing
elided). -/
def verdictPassed (analyses : List RegressionAnalysis) : Bool :=
  let criticals := analyses.filter (fun a => a.level = RegressionLevel.critical)
  let warnings := analyses.filter (fun a => a.level = RegressionLevel.warning)
  let has_critical := criticals.length > 0
  let has_warning := warnings.length > 0
  if has_critical then false
  else if has_warning then true
  else true

/-- Embeds `check_regressions` (lines 134–244) after loading: from the two loaded
dicts to the boolean result. Line 162: when `common_names` is empty the
function prints an error and returns `False` (it does not raise), hence
`some false`. -/
def check_regressions (current_results baseline_results :
    List (String × BenchmarkResult)) : Option Bool :=
  let common := commonNames baseline_results current_results
  if common = ∅ then some false
  else (analysesOf baseline_results current_results).map verdictPassed

/-- Where Python `print` writes: `print(x)` targets stdout, and
`print(x, file=sys.stderr)` targets stderr. -/
inductive OutChannel where
  | stdout
  | stderr
  deriving DecidableEq, Repr

/-- Lines 248–257 of `main`: when `len(sys.argv) != 3`, the usage text is
printed with plain `print` (no `file=sys.stderr`), so it goes to stdout,
and the process exits with code 2; otherwise this branch is not taken. -/
def mainUsage (argc : Nat) : Option (OutChannel × Nat) :=
  if argc ≠ 3 then some (OutChannel.stdout, 2) else none

/-- Lines 259–264 of `main`: load both documents, run
`check_regressions`, and exit `0 if passed else 1`. `none` models an
uncaught exception aborting the process. -/
def runPipeline (currentEntries baselineEntries : List BenchmarkEntry) :
    Option Nat :=
  match load_benchmark_results baselineEntries,
        load_benchmark_results currentEntries with
  | some baseline_results, some current_results =>
    (check_regressions current_results baseline_results).map
      (fun passed => if passed then 0 else 1)
  | _, _ => none

end CheckFstRegression

namespace CheckFstRegression

/-- Helper: `classify` returns `improvement` exactly on `r ≤ -5`. -/
theorem classify_improvement_iff (r : ℚ) :
    classify r = RegressionLevel.improvement ↔ r ≤ -5 := by
  unfold classify
  split_ifs <;> simp <;> linarith

/-- Helper: `classify` returns `acceptable` exactly on `-5 < r ≤ 10`. -/
theorem classify_acceptable_iff (r : ℚ) :
    classify r = RegressionLevel.acceptable ↔ -5 < r ∧ r ≤ 10 := by
  unfold classify
  split_ifs <;> simp <;> (try constructor) <;> (try intro hx) <;> linarith

/-- Helper: `classify` returns `warning` exactly on `10 < r ≤ 20`. -/
theorem classify_warning_iff (r : ℚ) :
    classify r = RegressionLevel.warning ↔ 10 < r ∧ r ≤ 20 := by
  unfold classify
  split_ifs <;> simp <;> (try constructor) <;> (try intro hx) <;> linarith

/-- Helper: `classify` returns `critical` exactly on `20 < r`. -/
theorem classify_critical_iff (r : ℚ) :
    classify r = RegressionLevel.critical ↔ 20 < r := by
  unfold classify
  split_ifs <;> simp <;> linarith

/-- C3: for every (baseline, current) pair with nonzero baseline,
`analyze_regression` succeeds and the tier is determined from
`r = regression_pct` by the ordered cascade with boundaries `r ≤ -5` →
improvement, `-5 < r ≤ 10` → acceptable, `10 < r ≤ 20` → warning,
`20 < r` → critical; the four iff characterizations partition `ℚ`, so
exactly one tier applies (in particular `r = -5` is improvement, `r = 10`
acceptable, `r = 20` warning, and anything above 20 critical). -/
theorem tier_cascade (b c : BenchmarkResult) (h : b.time_ns ≠ 0) :
    ∃ a, analyze_regression b c = some a ∧
      a.regression_pct = (c.time_ns - b.time_ns) / b.time_ns * 100 ∧
      (a.level = RegressionLevel.improvement ↔ a.regression_pct ≤ -5) ∧
      (a.level = RegressionLevel.acceptable ↔
        -5 < a.regression_pct ∧ a.regression_pct ≤ 10) ∧
      (a.level = RegressionLevel.warning ↔
        10 < a.regression_pct ∧ a.regression_pct ≤ 20) ∧
      (a.level = RegressionLevel.critical ↔ 20 < a.regression_pct) := by
  simp only [analyze_regression, if_neg h]
  exact ⟨_, rfl, rfl, classify_improvement_iff _, classify_acceptable_iff _,
    classify_warning_iff _, classify_critical_iff _⟩

/-- Witness for C3 at baseline 100 ns, current 95 ns (`r = -5`,
the improvement boundary of the spec's scenario 1). -/
theorem tier_cascade_witness :
    (BenchmarkResult.mk "A" 100 0 "").time_ns ≠ 0 ∧
    (∃ a, analyze_regression (BenchmarkResult.mk "A" 100 0 "")
        (BenchmarkResult.mk "A" 95 0 "") = some a ∧
      a.regression_pct = ((BenchmarkResult.mk "A" 95 0 "").time_ns -
        (BenchmarkResult.mk "A" 100 0 "").time_ns) /
          (BenchmarkResult.mk "A" 100 0 "").time_ns * 100 ∧
      (a.level = RegressionLevel.improvement ↔ a.regression_pct ≤ -5) ∧
      (a.level = RegressionLevel.acceptable ↔
        -5 < a.regression_pct ∧ a.regression_pct ≤ 10) ∧
      (a.level = RegressionLevel.warning ↔
        10 < a.regression_pct ∧ a.regression_pct ≤ 20) ∧
      (a.level = RegressionLevel.critical ↔ 20 < a.regression_pct)) :=
  ⟨by norm_num, tier_cascade _ _ (by norm_num)⟩

/-- Helper: the verdict is `false` exactly when some analysis is critical. -/
theorem verdictPassed_false_iff (analyses : List RegressionAnalysis) :
    verdictPassed analyses = false ↔
      ∃ a ∈ analyses, a.level = RegressionLevel.critical := by
  constructor
  · intro h
    by_contra hno
    push_neg at hno
    have hf : analyses.filter (fun a => a.level = RegressionLevel.critical) = [] := by
      rw [List.filter_eq_nil_iff]
      intro a ha
      simpa using hno a ha
    simp only [verdictPassed, hf] at h
    simp at h
  · rintro ⟨a, ha, hl⟩
    have hm : a ∈ analyses.filter (fun a => a.level = RegressionLevel.critical) := by
      rw [List.mem_filter]
      exact ⟨ha, by simpa using hl⟩
    have hpos : 0 < (analyses.filter
        (fun a => a.level = RegressionLevel.critical)).length :=
      List.length_pos.mpr (List.ne_nil_of_mem hm)
    simp only [verdictPassed]
    simp [hpos]

/-- C4: for every list of pairwise analyses, the overall verdict passes if
and only if the critical bucket is empty — the boolean result is `false`
exactly when some analysis has tier `critical`, and so a non-empty warning
bucket never flips the result to fail. -/
theorem passed_iff_no_critical (analyses : List RegressionAnalysis) :
    (verdictPassed analyses = false ↔
      ∃ a ∈ analyses, a.level = RegressionLevel.critical) ∧
    (verdictPassed analyses = true ↔
      ∀ a ∈ analyses, a.level ≠ RegressionLevel.critical) := by
  refine ⟨verdictPassed_false_iff analyses, ?_⟩
  have hb : verdictPassed analyses = true ↔ ¬ verdictPassed analyses = false := by
    cases verdictPassed analyses <;> simp
  rw [hb, verdictPassed_false_iff]
  push_neg
  rfl

/-- C8: for every pair of loaded name-to-measurement mappings, the three
name sets `common`, `baseline_only` and `current_only` are pairwise
disjoint and their union is the union of the two input name sets. -/
theorem partition_names (b c : List (String × BenchmarkResult)) :
    Disjoint (commonNames b c) (onlyBaseline b c) ∧
    Disjoint (commonNames b c) (onlyCurrent b c) ∧
    Disjoint (onlyBaseline b c) (onlyCurrent b c) ∧
    commonNames b c ∪ onlyBaseline b c ∪ onlyCurrent b c =
      namesOf b ∪ namesOf c := by
  refine ⟨?_, ?_, ?_, ?_⟩
  · rw [Finset.disjoint_left]
    intro x hx hy
    simp [commonNames, onlyBaseline] at hx hy
    tauto
  · rw [Finset.disjoint_left]
    intro x hx hy
    simp [commonNames, onlyCurrent] at hx hy
    tauto
  · rw [Finset.disjoint_left]
    intro x hx hy
    simp [onlyBaseline, onlyCurrent] at hx hy
    tauto
  · ext x
    simp [commonNames, onlyBaseline, onlyCurrent]
    tauto

/-- Counterexample to C1: the spec's scenario — baseline `{"A": 0 ns}`,
current `{"A": 10 ns}`. The analyzer produces no analysis at all
(`ZeroDivisionError`), and the whole run aborts on the uncaught exception
(`runPipeline … = none`); the claim says the run recovers locally and does
not abort. -/
theorem degenerate_baseline_counterexample :
    analyze_regression (BenchmarkResult.mk "A" 0 0 "")
      (BenchmarkResult.mk "A" 10 0 "") = none ∧
    runPipeline [{ name := some "A", real_time := some 10 }]
      [{ name := some "A", real_time := some 0 }] = none := by
  refine ⟨rfl, ?_⟩
  have hb : load_benchmark_results [{ name := some "A", real_time := some 0 }] =
      some [("A", BenchmarkResult.mk "A" 0 0 "")] := by decide
  have hc : load_benchmark_results [{ name := some "A", real_time := some 10 }] =
      some [("A", BenchmarkResult.mk "A" 10 0 "")] := by decide
  have hcm : commonNames [("A", BenchmarkResult.mk "A" 0 0 "")]
      [("A", BenchmarkResult.mk "A" 10 0 "")] = {"A"} := by decide
  have hsc : sortedCommon [("A", BenchmarkResult.mk "A" 0 0 "")]
      [("A", BenchmarkResult.mk "A" 10 0 "")] = ["A"] := by
    rw [sortedCommon, hcm, Finset.sort_singleton]
  simp only [runPipeline, hb, hc, check_regressions, analysesOf, hcm, hsc]
  rw [if_neg (show ¬({"A"} : Finset String) = ∅ by decide)]
  decide

/-- C1 as amended: when a common benchmark's baseline `time_ns` is zero,
`analyze_regression` raises `ZeroDivisionError` (modelled `none`): the
benchmark is assigned no tier and no infinity/NaN enters the tier table,
but there is no `DegenerateBaseline` recovery or separate "undefined"
report — the uncaught exception aborts the analysis run. -/
theorem degenerate_baseline_aborts (b c : BenchmarkResult)
    (h : b.time_ns = 0) : analyze_regression b c = none := by
  simp only [analyze_regression, if_pos h]

/-- Witness for the amended C1 at baseline 0 ns, current 10 ns. -/
theorem degenerate_baseline_aborts_witness :
    (BenchmarkResult.mk "A" 0 0 "").time_ns = 0 ∧
    analyze_regression (BenchmarkResult.mk "A" 0 0 "")
      (BenchmarkResult.mk "A" 10 0 "") = none :=
  ⟨rfl, degenerate_baseline_aborts _ _ rfl⟩

/-- Counterexample to C2: with baseline `{"B"}` and current `{"A"}` the
common set is empty, yet the process exit code is `1` (the generic
failure code from `sys.exit(0 if passed else 1)`), not the claimed `2`. -/
theorem no_common_exit_code_counterexample :
    runPipeline [{ name := some "A", real_time := some 10 }]
      [{ name := some "B", real_time := some 10 }] = some 1 ∧ (1 : ℕ) ≠ 2 :=
  ⟨by decide, by decide⟩

/-- C2 as amended: whenever the common name set is empty,
`check_regressions` reports the error and returns `False` (it does not
raise a distinct `NoCommonBenchmarks` error), and `main` maps that to
process exit code `1` — the same code as a critical regression — not `2`. -/
theorem no_common_returns_false_exit_one (ce be : List BenchmarkEntry)
    (b c : List (String × BenchmarkResult))
    (hb : load_benchmark_results be = some b)
    (hc : load_benchmark_results ce = some c)
    (h : commonNames b c = ∅) :
    check_regressions c b = some false ∧ runPipeline ce be = some 1 := by
  have h1 : check_regressions c b = some false := by
    simp only [check_regressions, if_pos h]
  refine ⟨h1, ?_⟩
  simp only [runPipeline, hb, hc, h1, Option.map_some]
  rfl

/-- Witness for the amended C2: baseline `{"B": 10}`, current `{"A": 10}`. -/
theorem no_common_returns_false_exit_one_witness :
    load_benchmark_results [{ name := some "B", real_time := some 10 }] =
      some [("B", BenchmarkResult.mk "B" 10 0 "")] ∧
    load_benchmark_results [{ name := some "A", real_time := some 10 }] =
      some [("A", BenchmarkResult.mk "A" 10 0 "")] ∧
    commonNames [("B", BenchmarkResult.mk "B" 10 0 "")]
      [("A", BenchmarkResult.mk "A" 10 0 "")] = ∅ ∧
    (check_regressions [("A", BenchmarkResult.mk "A" 10 0 "")]
        [("B", BenchmarkResult.mk "B" 10 0 "")] = some false ∧
      runPipeline [{ name := some "A", real_time := some 10 }]
        [{ name := some "B", real_time := some 10 }] = some 1) :=
  ⟨by decide, by decide, by decide,
    no_common_returns_false_exit_one _ _ _ _ (by decide) (by decide) (by decide)⟩

/-- Counterexample to C9: at argument count 2 (one positional argument)
the usage text is emitted on standard output, which is not the error
stream the claim names. -/
theorem usage_stream_counterexample :
    mainUsage 2 = some (OutChannel.stdout, 2) ∧
    OutChannel.stdout ≠ OutChannel.stderr := by
  exact ⟨rfl, by decide⟩

/-- C9 as amended: when the command is invoked with an argument count
other than exactly two positional arguments, the usage text is emitted to
standard output (plain `print`, not `file=sys.stderr`) and the process
exits with code 2. -/
theorem usage_to_stdout_exit_two (argc : ℕ) (h : argc ≠ 3) :
    mainUsage argc = some (OutChannel.stdout, 2) := by
  simp only [mainUsage, if_pos h]

/-- Witness for the amended C9 at `len(sys.argv) = 2`. -/
theorem usage_to_stdout_exit_two_witness :
    (2 : ℕ) ≠ 3 ∧ mainUsage 2 = some (OutChannel.stdout, 2) :=
  ⟨by decide, usage_to_stdout_exit_two 2 (by decide)⟩

/-- Helper: if any entry of the list has no name, the load loop aborts. -/
theorem loadLoop_none_of_missing_name (entries : List BenchmarkEntry) :
    ∀ acc, (∃ e ∈ entries, e.name = none) → loadLoop acc entries = none := by
  induction entries with
  | nil =>
    intro acc h
    simp at h
  | cons e rest ih =>
    intro acc h
    cases he : e.name with
    | none => simp only [loadLoop, he]
    | some n =>
      obtain ⟨x, hx, hxn⟩ := h
      rcases List.mem_cons.mp hx with rfl | hx
      · rw [he] at hxn
        cases hxn
      · simp only [loadLoop, he]
        exact ih _ ⟨x, hx, hxn⟩

/-- Counterexample to C5: a document whose first entry lacks its name and
whose second entry is valid. The claim says the nameless entry is skipped
with a warning and loading proceeds over the remaining entries; in fact
`benchmark['name']` raises `KeyError` and the load aborts (`none`), while
the same valid entry alone loads fine. -/
theorem missing_name_counterexample :
    load_benchmark_results [({ real_time := some 5 } : BenchmarkEntry),
      { name := some "A", real_time := some 10 }] = none ∧
    load_benchmark_results [({ name := some "A", real_time := some 10 } :
      BenchmarkEntry)] =
      some [("A", BenchmarkResult.mk "A" 10 0 "")] := by
  constructor <;> decide

/-- C5 as amended: a benchmark entry missing its name is not skipped — the
`KeyError` from `benchmark['name']` aborts the whole load, so no mapping
is produced at all. -/
theorem missing_name_aborts (entries : List BenchmarkEntry)
    (h : ∃ e ∈ entries, e.name = none) :
    load_benchmark_results entries = none :=
  loadLoop_none_of_missing_name entries [] h

/-- Witness for the amended C5 on a two-entry document whose first entry
has no name. -/
theorem missing_name_aborts_witness :
    (∃ e ∈ [({ real_time := some 5 } : BenchmarkEntry),
        { name := some "A", real_time := some 10 }], e.name = none) ∧
    load_benchmark_results [({ real_time := some 5 } : BenchmarkEntry),
      { name := some "A", real_time := some 10 }] = none :=
  ⟨⟨{ real_time := some 5 }, by decide⟩,
    missing_name_aborts _ ⟨{ real_time := some 5 }, by decide⟩⟩

/-- C6: for every loaded entry, the stored `time_ns` is the raw time value
multiplied by 1,000 for `time_unit = "us"`, by 1,000,000 for
`time_unit = "ms"`, and unchanged (×1, nanoseconds default) when no unit
is specified. -/
theorem unit_conversion (e : BenchmarkEntry) (n : String) (raw : ℚ)
    (hn : e.name = some n) (hr : e.real_time = some raw) :
    ∃ r, load_benchmark_results [e] = some [(n, r)] ∧
      (e.time_unit = some "us" → r.time_ns = raw * 1000) ∧
      (e.time_unit = some "ms" → r.time_ns = raw * 1000000) ∧
      (e.time_unit = none → r.time_ns = raw) := by
  refine ⟨{ name := n, time_ns := convertTime raw (e.time_unit.getD "ns"),
            items_per_sec := e.items_per_second.getD 0,
            label := e.label.getD "" }, ?_, ?_, ?_, ?_⟩
  · simp [load_benchmark_results, loadLoop, hn, hr, dictInsert]
  · intro hu
    simp [hu, convertTime]
  · intro hu
    simp [hu, convertTime]
  · intro hu
    simp [hu, convertTime]

/-- Witness for C6: raw value 5 with unit `"us"` loads as
`time_ns = 5 * 1000 = 5000`. -/
theorem unit_conversion_witness :
    (({ name := some "A", real_time := some 5, time_unit := some "us" } :
        BenchmarkEntry).name = some "A") ∧
    (({ name := some "A", real_time := some 5, time_unit := some "us" } :
        BenchmarkEntry).real_time = some 5) ∧
    (∃ r, load_benchmark_results
        [({ name := some "A", real_time := some 5, time_unit := some "us" } :
          BenchmarkEntry)] = some [("A", r)] ∧
      (({ name := some "A", real_time := some 5, time_unit := some "us" } :
          BenchmarkEntry).time_unit = some "us" → r.time_ns = 5 * 1000) ∧
      (({ name := some "A", real_time := some 5, time_unit := some "us" } :
          BenchmarkEntry).time_unit = some "ms" → r.time_ns = 5 * 1000000) ∧
      (({ name := some "A", real_time := some 5, time_unit := some "us" } :
          BenchmarkEntry).time_unit = none → r.time_ns = 5)) :=
  ⟨rfl, rfl, unit_conversion _ "A" 5 rfl rfl⟩

/-- C10: an entry whose `time_unit` is present but is neither `"us"` nor
`"ms"` gets no conversion: the stored `time_ns` is the raw time value
(`real_time`, falling back to `cpu_time`, defaulting to 0), exactly as in
the nanoseconds default case. -/
theorem unrecognized_unit_is_identity (e : BenchmarkEntry) (n u : String)
    (hn : e.name = some n) (hu : e.time_unit = some u)
    (h1 : u ≠ "us") (h2 : u ≠ "ms") :
    ∃ r, load_benchmark_results [e] = some [(n, r)] ∧
      r.time_ns = e.real_time.getD (e.cpu_time.getD 0) := by
  refine ⟨{ name := n, time_ns := convertTime (e.real_time.getD (e.cpu_time.getD 0))
              (e.time_unit.getD "ns"),
            items_per_sec := e.items_per_second.getD 0,
            label := e.label.getD "" }, ?_, ?_⟩
  · simp [load_benchmark_results, loadLoop, hn, dictInsert]
  · simp only [hu, Option.getD_some, convertTime]
    rw [if_neg h2, if_neg h1]

/-- Witness for C10 with the unrecognized unit `"s"` and raw value 7. -/
theorem unrecognized_unit_is_identity_witness :
    (({ name := some "A", real_time := some 7, time_unit := some "s" } :
        BenchmarkEntry).name = some "A") ∧
    (({ name := some "A", real_time := some 7, time_unit := some "s" } :
        BenchmarkEntry).time_unit = some "s") ∧
    ("s" : String) ≠ "us" ∧ ("s" : String) ≠ "ms" ∧
    (∃ r, load_benchmark_results
        [({ name := some "A", real_time := some 7, time_unit := some "s" } :
          BenchmarkEntry)] = some [("A", r)] ∧
      r.time_ns =
        (({ name := some "A", real_time := some 7, time_unit := some "s" } :
          BenchmarkEntry)).real_time.getD
          ((({ name := some "A", real_time := some 7, time_unit := some "s" } :
            BenchmarkEntry)).cpu_time.getD 0)) :=
  ⟨rfl, rfl, by decide, by decide,
    unrecognized_unit_is_identity _ "A" "s" rfl rfl (by decide) (by decide)⟩

/-- Helper: membership in a dict after insertion. -/
theorem mem_dictInsert (d : List (String × BenchmarkResult)) (k : String)
    (v : BenchmarkResult) (q : String × BenchmarkResult)
    (h : q ∈ dictInsert d k v) : q = (k, v) ∨ q ∈ d := by
  unfold dictInsert at h
  split at h
  · obtain ⟨p, hp, hq⟩ := List.mem_map.mp h
    by_cases hpk : p.1 = k
    · left
      rw [if_pos hpk] at hq
      exact hq.symm
    · right
      rw [if_neg hpk] at hq
      exact hq ▸ hp
  · rcases List.mem_append.mp h with h | h
    · right
      exact h
    · left
      simpa using h

/-- Helper: every pair the load loop stores carries its own key as its
`name` field (line 96–97: `results[name] = BenchmarkResult(name=name, …)`). -/
theorem loadLoop_name_inv (entries : List BenchmarkEntry) :
    ∀ acc d, (∀ p ∈ acc, p.2.name = p.1) → loadLoop acc entries = some d →
      ∀ p ∈ d, p.2.name = p.1 := by
  induction entries with
  | nil =>
    intro acc d hacc h
    simp only [loadLoop, Option.some.injEq] at h
    exact h ▸ hacc
  | cons e rest ih =>
    intro acc d hacc h
    cases he : e.name with
    | none =>
      simp only [loadLoop, he] at h
      cases h
    | some n =>
      simp only [loadLoop, he] at h
      refine ih _ d ?_ h
      intro p hp
      rcases mem_dictInsert _ _ _ _ hp with rfl | hp
      · rfl
      · exact hacc p hp

/-- Helper: name invariant for a fully loaded document. -/
theorem load_name_inv (entries : List BenchmarkEntry)
    (d : List (String × BenchmarkResult))
    (h : load_benchmark_results entries = some d) :
    ∀ p ∈ d, p.2.name = p.1 :=
  loadLoop_name_inv entries [] d (fun p hp => absurd hp (List.not_mem_nil p)) h

/-- Helper: under the name invariant, a dict lookup returns a result whose
`name` field is the looked-up key. -/
theorem dictGet_name (d : List (String × BenchmarkResult)) (k : String)
    (r : BenchmarkResult) (h : dictGet d k = some r)
    (hinv : ∀ p ∈ d, p.2.name = p.1) : r.name = k := by
  unfold dictGet at h
  cases hf : d.find? (fun p => p.1 = k) with
  | none =>
    rw [hf] at h
    cases h
  | some p =>
    rw [hf] at h
    simp only [Option.map_some', Option.some.injEq] at h
    have h1 := List.find?_some hf
    have h2 := List.mem_of_find?_eq_some hf
    simp only [decide_eq_true_eq] at h1
    rw [← h, hinv p h2, h1]

/-- Helper: a produced analysis carries the baseline's name (line 126). -/
theorem analyze_regression_name (b c : BenchmarkResult)
    (a : RegressionAnalysis) (h : analyze_regression b c = some a) :
    a.name = b.name := by
  simp only [analyze_regression] at h
  split at h
  · cases h
  · simp only [Option.some.injEq] at h
    rw [← h]

/-- Helper: when the analysis loop succeeds, the produced analyses carry
exactly the requested names, in order. -/
theorem analyzeAll_names (b c : List (String × BenchmarkResult))
    (hinv : ∀ p ∈ b, p.2.name = p.1) :
    ∀ names as, analyzeAll b c names = some as →
      as.map RegressionAnalysis.name = names := by
  intro names
  induction names with
  | nil =>
    intro as h
    simp only [analyzeAll, Option.some.injEq] at h
    rw [← h]
    rfl
  | cons name rest ih =>
    intro as h
    simp only [analyzeAll] at h
    cases hb : dictGet b name with
    | none =>
      simp only [hb] at h
      cases h
    | some bb =>
      cases hc : dictGet c name with
      | none =>
        simp only [hb, hc] at h
        cases h
      | some cc =>
        cases ha : analyze_regression bb cc with
        | none =>
          simp only [hb, hc, ha] at h
          cases h
        | some a =>
          cases hrest : analyzeAll b c rest with
          | none =>
            simp only [hb, hc, ha, hrest] at h
            cases h
          | some as0 =>
            simp only [hb, hc, ha, hrest, Option.some.injEq] at h
            subst h
            simp only [List.map_cons]
            rw [analyze_regression_name bb cc a ha, dictGet_name b name bb hb hinv,
              ih as0 hrest]

/-- C7: for every pair of loaded documents with non-empty common name set,
the produced list of pairwise analyses is ordered by benchmark name: its
name sequence is exactly the sorted common-name list, hence strictly
sorted and reproducible across runs for the same inputs. -/
theorem analyses_sorted_by_name (be ce : List BenchmarkEntry)
    (b c : List (String × BenchmarkResult)) (as : List RegressionAnalysis)
    (hb : load_benchmark_results be = some b)
    (hc : load_benchmark_results ce = some c)
    (hne : commonNames b c ≠ ∅)
    (ha : analysesOf b c = some as) :
    as.map RegressionAnalysis.name = sortedCommon b c ∧
    List.Sorted (· < ·) (as.map RegressionAnalysis.name) := by
  have hinv := load_name_inv be b hb
  have h1 := analyzeAll_names b c hinv (sortedCommon b c) as ha
  refine ⟨h1, ?_⟩
  rw [h1, sortedCommon]
  exact Finset.sort_sorted_lt _

/-- Witness for C7: baseline `{B: 200, A: 100}` and current
`{A: 100, C: 50}` share exactly the name `"A"`. -/
theorem analyses_sorted_by_name_witness :
    [RegressionAnalysis.mk "A" 100 100 0 RegressionLevel.acceptable].map
        RegressionAnalysis.name =
      sortedCommon
        [("B", BenchmarkResult.mk "B" 200 0 ""),
          ("A", BenchmarkResult.mk "A" 100 0 "")]
        [("A", BenchmarkResult.mk "A" 100 0 ""),
          ("C", BenchmarkResult.mk "C" 50 0 "")] ∧
    List.Sorted (· < ·)
      ([RegressionAnalysis.mk "A" 100 100 0 RegressionLevel.acceptable].map
        RegressionAnalysis.name) :=
  analyses_sorted_by_name
    [{ name := some "B", real_time := some 200 },
      { name := some "A", real_time := some 100 }]
    [{ name := some "A", real_time := some 100 },
      { name := some "C", real_time := some 50 }]
    [("B", BenchmarkResult.mk "B" 200 0 ""),
      ("A", BenchmarkResult.mk "A" 100 0 "")]
    [("A", BenchmarkResult.mk "A" 100 0 ""),
      ("C", BenchmarkResult.mk "C" 50 0 "")]
    [RegressionAnalysis.mk "A" 100 100 0 RegressionLevel.acceptable]
    (by decide) (by decide) (by decide)
    (by
      have hcm : commonNames
          [("B", BenchmarkResult.mk "B" 200 0 ""),
            ("A", BenchmarkResult.mk "A" 100 0 "")]
          [("A", BenchmarkResult.mk "A" 100 0 ""),
            ("C", BenchmarkResult.mk "C" 50 0 "")] = {"A"} := by decide
      have hgb : dictGet
          [("B", BenchmarkResult.mk "B" 200 0 ""),
            ("A", BenchmarkResult.mk "A" 100 0 "")] "A" =
          some (BenchmarkResult.mk "A" 100 0 "") := by decide
      have hgc : dictGet
          [("A", BenchmarkResult.mk "A" 100 0 ""),
            ("C", BenchmarkResult.mk "C" 50 0 "")] "A" =
          some (BenchmarkResult.mk "A" 100 0 "") := by decide
      have hana : analyze_regression (BenchmarkResult.mk "A" 100 0 "")
          (BenchmarkResult.mk "A" 100 0 "") =
          some (RegressionAnalysis.mk "A" 100 100 0 RegressionLevel.acceptable) := by
        simp only [analyze_regression]
        rw [if_neg (by norm_num)]
        norm_num [classify]
      rw [analysesOf, sortedCommon, hcm, Finset.sort_singleton]
      simp only [analyzeAll, hgb, hgc, hana])

end CheckFstRegression
